import Mathlib

/-!
# Data.Maybe (purec reference output): values, constructors and the derived Show instance

Embedding of `reference/output/Data.Maybe.c`.  The C file builds boxed runtime
values (`purs_any_t`) for the two constructors of `Maybe` and a `Show`
dictionary for `Maybe a` out of a `Show` dictionary for `a`.

Conventions of the embedding:

* a pointer to an immutable cell is the cell's content;
* an operation that can stop in a failed assertion returns `Except Fault _`;
* where the C code has undefined behaviour (the unchecked read `values[0]` past the
  field array), the outcome is `Fault.UNDEFINED`: it marks that the code promises
  nothing there, and it is not a failure raised by the code;
* a function value held in a dictionary is a function of the embedding, and
  `purs_any_app f x` is `f x`;
* the array `values` of a constructor cell is a list, the null array is `[]`,
  and the separate `len` field of the cell is kept next to it.
-/

namespace Purec

/-- The assertion sites at which rendering can stop. -/
inductive Site where
  /-- Extraction `purs_any_get_cons` from a cell whose discriminant is not `CONS`. -/
  | extraction
  /-- The assertion `assert(0)` after the two tag tests (failed pattern match). -/
  | patternMatch
  /-- Concatenation `purs_any_concat` with an operand that is not a text. -/
  | concatenation
  deriving DecidableEq, Repr

/-- The outcomes of an operation that returns no value.  The only failure of this
core is the invariant violation (a failed assertion), recorded with the site that
raised it.  `UNDEFINED` is not a failure: it marks that the code ran into undefined
behaviour of C, where no assertion stops it and nothing is promised about what it
does. -/
inductive Fault where
  | INVARIANT_VIOLATION (site : Site)
  | UNDEFINED
  deriving DecidableEq, Repr

/-- Modelled from the spec: the discriminant of a value cell (the runtime header that
declares it is not among the sources).  The source file uses `CONS`; the text shape
is the one `purs_any_set_string` produces; numbers and booleans are the primitives
the spec names. -/
inductive purs_any_tag_t where
  | CONS
  | STRING
  | INT
  | BOOLEAN
  deriving DecidableEq, Repr

/-- Modelled from the spec: the value cell `purs_any_t` (declared in the runtime header,
which is not among the sources).  Exactly one shape is active.  A constructor
application carries the three fields of `purs_cons_t` that the source initialises:
`tag`, `len` and `values`. -/
inductive purs_any_t where
  | CONS (tag : Int) (len : Nat) (values : List purs_any_t)
  | STRING (s : String)
  | INT (n : Int)
  | BOOLEAN (b : Bool)

/-- The discriminant `x->tag` of a value cell. -/
def purs_any_t.tag : purs_any_t → purs_any_tag_t
  | .CONS _ _ _ => .CONS
  | .STRING _ => .STRING
  | .INT _ => .INT
  | .BOOLEAN _ => .BOOLEAN

/-- The constructor application `purs_cons_t`: the fields written at lines 19-23. -/
structure purs_cons_t where
  tag : Int
  len : Nat
  values : List purs_any_t

/-- Modelled from the spec: the header `Data.Maybe.h` that defines the two tags is not
among the sources; the tags are an enumeration that distinguishes the constructors,
numbered in declaration order (`Nothing`, then `Just`). -/
def Data_Maybe_Nothing__Tag : Int := 0

/-- Modelled from the spec: see `Data_Maybe_Nothing__Tag`. -/
def Data_Maybe_Just__Tag : Int := 1

/-- Modelled from the spec: `purs_any_set_cons(GC_NEW(purs_any_t), c)` fills a fresh cell
with the constructor application `c` and discriminant `CONS`. -/
def purs_any_set_cons (c : purs_cons_t) : purs_any_t :=
  .CONS c.tag c.len c.values

/-- Modelled from the spec: `purs_any_set_string(GC_NEW(purs_any_t), managed_utf8str_new(afmt(s)))`
fills a fresh cell with the text `s`. -/
def purs_any_set_string (s : String) : purs_any_t :=
  .STRING s

/-- Modelled from the spec: `purs_any_get_cons` extracts the constructor application of a
cell; extraction with a mismatched discriminant is the invariant violation. -/
def purs_any_get_cons : purs_any_t → Except Fault purs_cons_t
  | .CONS tag len values => .ok { tag := tag, len := len, values := values }
  | _ => .error (.INVARIANT_VIOLATION .extraction)

/-- Modelled from the spec: `purs_any_concat` is the pure concatenation of two text
values into a new text value; an operand of another shape is a mismatched
extraction, the invariant violation. -/
def purs_any_concat : purs_any_t → purs_any_t → Except Fault purs_any_t
  | .STRING a, .STRING b => .ok (.STRING (a ++ b))
  | _, _ => .error (.INVARIANT_VIOLATION .concatenation)

/-- The `Show` dictionary `Data_Show_Show`: one operation, `show`.  The operation is a
function value of the runtime; it is embedded as a function that returns a value
cell or stops in a fault. -/
structure Data_Show_Show where
  «show» : purs_any_t → Except Fault purs_any_t

/-- The accessor `Data_Show_show(dict)`: the `show` operation of a dictionary. -/
def Data_Show_show (dict : Data_Show_Show) : purs_any_t → Except Fault purs_any_t :=
  dict.«show»

/-- Application `purs_any_app(f, x)` of a function value to one argument. -/
def purs_any_app (f : purs_any_t → Except Fault purs_any_t) (x : purs_any_t) :
    Except Fault purs_any_t :=
  f x

/-- The read `values[i]` of the field array of a constructor cell (line 41 reads
`value1->values[0]`).  The source tests neither `len` nor `values` before the read and
has no assertion there: within the array the read gives the field, and past the
array (or on the null array) the behaviour is undefined, which is the outcome
`UNDEFINED`, not an invariant violation. -/
def purs_cons_t.field (c : purs_cons_t) (i : Nat) : Except Fault purs_any_t :=
  match c.values[i]? with
  | some v => .ok v
  | none => .error .UNDEFINED

/-- The shared cell `_Data_Maybe_Nothing` (lines 3-12): discriminant `CONS`, tag
`Data_Maybe_Nothing__Tag`; `len` and `values` are not named by the initialiser, so
they are zero and the null array. -/
def Data_Maybe_Nothing : purs_any_t :=
  .CONS Data_Maybe_Nothing__Tag 0 []

/-- The constructor `Data_Maybe_Just` (lines 14-25): a fresh one-element array holding
`value0`, in a fresh cell with tag `Data_Maybe_Just__Tag` and `len = 1`. -/
def Data_Maybe_Just (value0 : purs_any_t) : purs_any_t :=
  purs_any_set_cons { tag := Data_Maybe_Just__Tag, len := 1, values := [value0] }

/-- The instance `Data_Maybe_showMaybe` (lines 27-62): a fresh dictionary whose `show`
is the block of lines 30-60, closed over `dictShow`. -/
def Data_Maybe_showMaybe (dictShow : Data_Show_Show) : Data_Show_Show :=
  { «show» := fun x => do
      let value1 ← purs_any_get_cons x
      if value1.tag = Data_Maybe_Just__Tag then
        let field ← value1.field 0
        let shown ← purs_any_app (Data_Show_show dictShow) field
        let inner ← purs_any_concat shown (purs_any_set_string ")")
        purs_any_concat (purs_any_set_string "(Just ") inner
      else if value1.tag = Data_Maybe_Nothing__Tag then
        pure (purs_any_set_string "(Nothing)")
      else
        throw (.INVARIANT_VIOLATION .patternMatch) }

/-- Modelled from the spec: the integer dictionary of the concrete scenarios, which maps
the integer `n` to its decimal text (the instance itself is not among the sources). -/
def Data_Show_showInt : Data_Show_Show :=
  { «show» := fun x =>
      match x with
      | .INT n => .ok (.STRING (toString n))
      | _ => .error (.INVARIANT_VIOLATION .extraction) }

/-- A dictionary whose `show` stops in a fault on every argument. -/
def failingShow : Data_Show_Show :=
  { «show» := fun _ => .error (.INVARIANT_VIOLATION .patternMatch) }

/-- The dictionary obtained from `D` by `n` applications of `Data_Maybe_showMaybe`. -/
def showMaybe_iterate : Nat → Data_Show_Show → Data_Show_Show
  | 0, D => D
  | n + 1, D => Data_Maybe_showMaybe (showMaybe_iterate n D)

/-- The value obtained from `x` by `n` applications of `Data_Maybe_Just`. -/
def Just_iterate : Nat → purs_any_t → purs_any_t
  | 0, x => x
  | n + 1, x => Data_Maybe_Just (Just_iterate n x)

mutual
/-- The structural size of a value: the number of cells it is built from. -/
def purs_any_t.size : purs_any_t → Nat
  | .CONS _ _ values => 1 + purs_any_t.sizeAll values
  | .STRING _ => 1
  | .INT _ => 1
  | .BOOLEAN _ => 1
/-- The sum of the structural sizes of the fields of a cell. -/
def purs_any_t.sizeAll : List purs_any_t → Nat
  | [] => 0
  | v :: vs => v.size + purs_any_t.sizeAll vs
end

/-- The values of the optional type, `n` levels deep, over the payloads that `D` renders
as a text: at depth `0` a payload on which the `show` of `D` returns a text, at depth
`n + 1` the empty cell or `Data_Maybe_Just` of a value of depth `n`. -/
inductive Nested (D : Data_Show_Show) : Nat → purs_any_t → Prop where
  | payload (x : purs_any_t) (s : String) (h : Data_Show_show D x = .ok (.STRING s)) :
      Nested D 0 x
  | nothing (n : Nat) : Nested D (n + 1) Data_Maybe_Nothing
  | just (n : Nat) (v : purs_any_t) (h : Nested D n v) : Nested D (n + 1) (Data_Maybe_Just v)

/-- The values produced by the constructors of the module: the shared empty cell and
`Data_Maybe_Just x` for any `x`. -/
inductive Constructed : purs_any_t → Prop where
  | nothing : Constructed Data_Maybe_Nothing
  | just (x : purs_any_t) : Constructed (Data_Maybe_Just x)

/-- The declared arity of a tag of the optional type, in the words of the data model: the
empty variant carries no field, the present-value variant exactly one; no other tag
belongs to the type. -/
def Data_Maybe_arity (tag : Int) : Option Nat :=
  if tag = Data_Maybe_Nothing__Tag then some 0
  else if tag = Data_Maybe_Just__Tag then some 1
  else none

/-! ### Dictionary cells in memory

`Data_Maybe_showMaybe` receives a pointer to a dictionary cell, takes a fresh cell
from the collector, writes its `show` slot and returns the pointer to it.  The
definitions below pass the memory of dictionary cells explicitly.  A function value
written to a `show` slot is either an operation supplied by another module or the block
of lines 30-60, which holds the pointer `dictShow` it was created with. -/

/-- A function value in the `show` slot of a dictionary cell. -/
inductive Closure where
  /-- An operation supplied from outside this module. -/
  | host (f : purs_any_t → Except Fault purs_any_t)
  /-- The block of lines 30-60, closed over the pointer `dictShow`. -/
  | showMaybe_block (dictShow : Nat)

/-- The memory of dictionary cells: the address of a cell is its position, and a cell
whose `show` slot has not been written holds `none`. -/
structure Memory where
  dicts : List (Option Closure)

/-- The content of the `show` slot of the cell at address `p`, if there is such a cell
and the slot has been written. -/
def Memory.show_slot (m : Memory) (p : Nat) : Option Closure :=
  m.dicts[p]?.join

/-- The allocation `GC_NEW(Data_Show_Show)`: a fresh cell at the next address, nothing
written to it yet. -/
def GC_NEW (m : Memory) : Nat × Memory :=
  (m.dicts.length, { dicts := m.dicts ++ [none] })

/-- The assignment `value0->show = f`. -/
def Memory.set_show (m : Memory) (value0 : Nat) (f : Closure) : Memory :=
  { dicts := m.dicts.set value0 (some f) }

/-- The function `Data_Maybe_showMaybe` as a memory transformer (lines 27-30 and 60-62):
allocate `value0`, write the block closed over `dictShow` to its `show` slot, return
`value0`. -/
def Data_Maybe_showMaybe_alloc (dictShow : Nat) (m : Memory) : Nat × Memory :=
  let (value0, m1) := GC_NEW m
  (value0, m1.set_show value0 (.showMaybe_block dictShow))

/-- The dictionary that the cell at an address stands for: a cell holding an outside
operation `f` is the dictionary of `f`, and a cell holding the block closed over
`dictShow` is `Data_Maybe_showMaybe` of the dictionary `dictShow` stands for. -/
inductive Denotes (m : Memory) : Nat → Data_Show_Show → Prop where
  | host (p : Nat) (f : purs_any_t → Except Fault purs_any_t)
      (h : m.show_slot p = some (.host f)) : Denotes m p { «show» := f }
  | block (p dictShow : Nat) (D : Data_Show_Show)
      (h : m.show_slot p = some (.showMaybe_block dictShow)) (hd : Denotes m dictShow D) :
      Denotes m p (Data_Maybe_showMaybe D)

/-- A memory with one cell, the decimal integer dictionary. -/
def intMemory : Memory :=
  { dicts := [some (.host (Data_Show_show Data_Show_showInt))] }

/-- The text made of `n` copies of `s`. -/
def copies : Nat → String → String
  | 0, _ => ""
  | n + 1, s => s ++ copies n s

/-- A dictionary whose `show` returns its argument as it is: on a payload that is not a
text, what it returns is not a text. -/
def echoShow : Data_Show_Show :=
  { «show» := fun x => .ok x }

/-- The values that are texts. -/
def textValues : Set purs_any_t :=
  fun x => ∃ s, x = .STRING s

/-- The two tags of the type are different. -/
theorem tags_distinct : Data_Maybe_Just__Tag ≠ Data_Maybe_Nothing__Tag := by
  decide

/-! ## The derived instance on the two variants -/

/-- Rendering a cell with the `Just` tag and a first field `x`. -/
theorem show_just_cell (D : Data_Show_Show) (len : Nat) (x : purs_any_t)
    (rest : List purs_any_t) :
    Data_Show_show (Data_Maybe_showMaybe D) (.CONS Data_Maybe_Just__Tag len (x :: rest)) =
      (do
        let shown ← Data_Show_show D x
        let inner ← purs_any_concat shown (purs_any_set_string ")")
        purs_any_concat (purs_any_set_string "(Just ") inner) := by
  simp [Data_Show_show, Data_Maybe_showMaybe, purs_any_get_cons, purs_cons_t.field,
    purs_any_app, bind, Except.bind]

/-- Rendering on the shared empty cell does not depend on the dictionary. -/
theorem show_nothing_cell (D : Data_Show_Show) (len : Nat) (values : List purs_any_t) :
    Data_Show_show (Data_Maybe_showMaybe D) (.CONS Data_Maybe_Nothing__Tag len values) =
      .ok (.STRING "(Nothing)") := by
  have h : ¬ Data_Maybe_Nothing__Tag = Data_Maybe_Just__Tag := fun e => tags_distinct e.symm
  simp [Data_Show_show, Data_Maybe_showMaybe, purs_any_get_cons, h, bind, Except.bind,
    purs_any_set_string, pure, Except.pure]

/-- Rendering `Data_Maybe_Just x` when the payload renders as the text `s`: the text the
code builds, with its own nesting of the concatenation. -/
theorem show_just_text (D : Data_Show_Show) (x : purs_any_t) (s : String)
    (h : Data_Show_show D x = .ok (.STRING s)) :
    Data_Show_show (Data_Maybe_showMaybe D) (Data_Maybe_Just x) =
      .ok (.STRING ("(Just " ++ (s ++ ")"))) := by
  unfold Data_Maybe_Just purs_any_set_cons
  rw [show_just_cell, h]
  simp [purs_any_concat, purs_any_set_string, bind, Except.bind]

/-- Rendering `Data_Maybe_Just x` when the payload dictionary stops in a fault: the same
fault. -/
theorem show_just_fault (D : Data_Show_Show) (x : purs_any_t) (e : Fault)
    (h : Data_Show_show D x = .error e) :
    Data_Show_show (Data_Maybe_showMaybe D) (Data_Maybe_Just x) = .error e := by
  unfold Data_Maybe_Just purs_any_set_cons
  rw [show_just_cell, h]
  simp [bind, Except.bind]

/-- A value is strictly larger than the field it wraps. -/
theorem size_lt_just (x : purs_any_t) : x.size < (Data_Maybe_Just x).size := by
  simp [Data_Maybe_Just, purs_any_set_cons, purs_any_t.size, purs_any_t.sizeAll]

/-- The constructor `Data_Maybe_Just` keeps its argument apart: equal cells wrap equal
values. -/
theorem Just_injective (x y : purs_any_t) (h : Data_Maybe_Just x = Data_Maybe_Just y) :
    x = y := by
  simpa [Data_Maybe_Just, purs_any_set_cons] using h

/-- The empty cell is not a `Data_Maybe_Just` cell. -/
theorem Nothing_ne_Just (x : purs_any_t) : Data_Maybe_Nothing ≠ Data_Maybe_Just x := by
  intro h
  have ht : Data_Maybe_Nothing__Tag = Data_Maybe_Just__Tag := by
    simpa [Data_Maybe_Just, Data_Maybe_Nothing, purs_any_set_cons] using congrArg
      (fun w => match w with
        | purs_any_t.CONS t _ _ => t
        | _ => 0) h
  exact tags_distinct ht.symm

/-- C1: for every payload dictionary `D` and payload `x` on which the `show` of `D`
returns the text `s`, the `show` of `Data_Maybe_showMaybe D` on `Data_Maybe_Just x`
returns the text `"(Just " ++ s ++ ")"`; the nested concatenation of the code,
`"(Just " ++ (s ++ ")")`, is that same text. -/
theorem showMaybe_just (D : Data_Show_Show) (x : purs_any_t) (s : String)
    (h : Data_Show_show D x = .ok (.STRING s)) :
    Data_Show_show (Data_Maybe_showMaybe D) (Data_Maybe_Just x) =
        .ok (.STRING ("(Just " ++ s ++ ")")) ∧
      "(Just " ++ (s ++ ")") = "(Just " ++ s ++ ")" := by
  refine ⟨?_, (String.append_assoc _ _ _).symm⟩
  rw [show_just_text D x s h, String.append_assoc]

/-- Witness of C1: the decimal integer dictionary at `42` gives `"(Just 42)"`. -/
theorem showMaybe_just_witness :
    Data_Show_show Data_Show_showInt (.INT 42) = .ok (.STRING "42") ∧
      Data_Show_show (Data_Maybe_showMaybe Data_Show_showInt) (Data_Maybe_Just (.INT 42)) =
        .ok (.STRING "(Just 42)") :=
  ⟨rfl, (showMaybe_just Data_Show_showInt (.INT 42) "42" rfl).1⟩

/-- C2: for every payload dictionary `D`, the `show` of `Data_Maybe_showMaybe D` on the
shared cell `Data_Maybe_Nothing` returns exactly the text `"(Nothing)"`: the result
is the same for all dictionaries, and it is returned also when the `show` of the
payload dictionary stops in a fault on every argument, so that operation is not
used. -/
theorem showMaybe_nothing (D : Data_Show_Show) :
    Data_Show_show (Data_Maybe_showMaybe D) Data_Maybe_Nothing = .ok (.STRING "(Nothing)") ∧
      (∀ y, ∃ e, Data_Show_show failingShow y = .error e) ∧
      Data_Show_show (Data_Maybe_showMaybe failingShow) Data_Maybe_Nothing =
        .ok (.STRING "(Nothing)") :=
  ⟨show_nothing_cell D 0 [], fun _ => ⟨_, rfl⟩, show_nothing_cell failingShow 0 []⟩

/-- C3: for every payload dictionary `D` and payload `x` on which the `show` of `D`
returns the text `s`, the instance applied to itself,
`Data_Maybe_showMaybe (Data_Maybe_showMaybe D)`, renders
`Data_Maybe_Just (Data_Maybe_Just x)` as `"(Just (Just " ++ s ++ "))"`. -/
theorem showMaybe_just_just (D : Data_Show_Show) (x : purs_any_t) (s : String)
    (h : Data_Show_show D x = .ok (.STRING s)) :
    Data_Show_show (Data_Maybe_showMaybe (Data_Maybe_showMaybe D))
        (Data_Maybe_Just (Data_Maybe_Just x)) =
      .ok (.STRING ("(Just (Just " ++ s ++ "))")) := by
  rw [show_just_text _ _ _ (show_just_text D x s h)]
  have e : "(Just " ++ (("(Just " ++ (s ++ ")")) ++ ")") = "(Just (Just " ++ s ++ "))" := by
    apply String.ext
    simp [String.data_append]
  rw [e]

/-- Witness of C3: the decimal integer dictionary at `7` gives `"(Just (Just 7))"`. -/
theorem showMaybe_just_just_witness :
    Data_Show_show Data_Show_showInt (.INT 7) = .ok (.STRING "7") ∧
      Data_Show_show (Data_Maybe_showMaybe (Data_Maybe_showMaybe Data_Show_showInt))
          (Data_Maybe_Just (Data_Maybe_Just (.INT 7))) =
        .ok (.STRING "(Just (Just 7))") :=
  ⟨rfl, showMaybe_just_just Data_Show_showInt (.INT 7) "7" rfl⟩

/-- C4: for every constructor application whose tag is neither `Data_Maybe_Just__Tag`
nor `Data_Maybe_Nothing__Tag` and every payload dictionary `D`, the `show` of
`Data_Maybe_showMaybe D` returns no value: it stops in the invariant violation of
the failed pattern match. -/
theorem showMaybe_other_tag (D : Data_Show_Show) (tag : Int) (len : Nat)
    (values : List purs_any_t) (hj : tag ≠ Data_Maybe_Just__Tag)
    (hn : tag ≠ Data_Maybe_Nothing__Tag) :
    Data_Show_show (Data_Maybe_showMaybe D) (.CONS tag len values) =
      .error (.INVARIANT_VIOLATION .patternMatch) := by
  simp [Data_Show_show, Data_Maybe_showMaybe, purs_any_get_cons, hj, hn, bind, Except.bind,
    throw, throwThe, MonadExceptOf.throw]

/-- Witness of C4: a cell with tag `2` carrying one integer field, under the decimal
integer dictionary. -/
theorem showMaybe_other_tag_witness :
    (2 : Int) ≠ Data_Maybe_Just__Tag ∧ (2 : Int) ≠ Data_Maybe_Nothing__Tag ∧
      Data_Show_show (Data_Maybe_showMaybe Data_Show_showInt) (.CONS 2 1 [.INT 5]) =
        .error (.INVARIANT_VIOLATION .patternMatch) :=
  ⟨by decide, by decide,
    showMaybe_other_tag Data_Show_showInt 2 1 [.INT 5] (by decide) (by decide)⟩

/-- Every value of depth `n` over the payloads of `D` is rendered as a text by the
`n`-fold instance. -/
theorem show_nested (D : Data_Show_Show) (n : Nat) (v : purs_any_t) (h : Nested D n v) :
    ∃ s, Data_Show_show (showMaybe_iterate n D) v = .ok (.STRING s) := by
  induction h with
  | payload x s hx => exact ⟨s, hx⟩
  | nothing n => exact ⟨"(Nothing)", show_nothing_cell _ 0 []⟩
  | just n v _ ih =>
    obtain ⟨s, hs⟩ := ih
    exact ⟨"(Just " ++ (s ++ ")"), show_just_text _ v s hs⟩

/-- C5: for every value `v` built from `Data_Maybe_Nothing` and `Data_Maybe_Just` to depth
`n` over a payload that `D` renders as a text, the `show` of the `n`-fold derived
dictionary returns on `v`, and what it returns is a text value; each level hands
the wrapped field, a strictly smaller value, to the next dictionary, so the
recursion descends along the structural size of `v`. -/
theorem showMaybe_terminates (D : Data_Show_Show) (n : Nat) (v : purs_any_t)
    (h : Nested D n v) :
    (∃ s, Data_Show_show (showMaybe_iterate n D) v = .ok (.STRING s)) ∧
      (∀ m w, v = Data_Maybe_Just w → n = m + 1 →
        w.size < v.size ∧ Nested D m w ∧
        ∃ t, Data_Show_show (showMaybe_iterate m D) w = .ok (.STRING t) ∧
          Data_Show_show (showMaybe_iterate n D) v = .ok (.STRING ("(Just " ++ t ++ ")"))) := by
  refine ⟨show_nested D n v h, ?_⟩
  intro m w hv hn
  subst hv
  subst hn
  have hw : Nested D m w := by
    cases h with
    | just _ _ hw => exact hw
  obtain ⟨t, ht⟩ := show_nested D m w hw
  refine ⟨size_lt_just w, hw, t, ht, ?_⟩
  show Data_Show_show (Data_Maybe_showMaybe (showMaybe_iterate m D)) (Data_Maybe_Just w) = _
  rw [show_just_text _ w t ht, String.append_assoc]

/-- Witness of C5: the value `Just (Just 7)` of depth two over the decimal integer
dictionary. -/
theorem showMaybe_terminates_witness :
    Nested Data_Show_showInt 2 (Data_Maybe_Just (Data_Maybe_Just (.INT 7))) ∧
      (∃ s, Data_Show_show (showMaybe_iterate 2 Data_Show_showInt)
        (Data_Maybe_Just (Data_Maybe_Just (.INT 7))) = .ok (.STRING s)) :=
  ⟨.just 1 _ (.just 0 _ (.payload (.INT 7) "7" rfl)),
    (showMaybe_terminates Data_Show_showInt 2 (Data_Maybe_Just (Data_Maybe_Just (.INT 7)))
      (.just 1 _ (.just 0 _ (.payload (.INT 7) "7" rfl)))).1⟩

/-! ## The constructors -/

/-- C6: for every value `x`, `Data_Maybe_Just x` is a cell whose discriminant is `CONS`,
and extracting its constructor application gives the tag `Data_Maybe_Just__Tag` and
the field sequence `[x]`: one field, which is `x` itself. -/
theorem Just_inspect (x : purs_any_t) :
    (Data_Maybe_Just x).tag = .CONS ∧
      ∃ c, purs_any_get_cons (Data_Maybe_Just x) = .ok c ∧
        c.tag = Data_Maybe_Just__Tag ∧ c.len = 1 ∧ c.values = [x] ∧ c.values.length = 1 ∧
        c.field 0 = .ok x :=
  ⟨rfl, { tag := Data_Maybe_Just__Tag, len := 1, values := [x] }, rfl, rfl, rfl, rfl, rfl, rfl⟩

/-- C7: every value produced by the constructors of the module is a constructor
application whose field count is the declared arity of its tag: the empty cell has
tag `Data_Maybe_Nothing__Tag` and no field (`len = 0`), every `Data_Maybe_Just x` has
tag `Data_Maybe_Just__Tag` and exactly one field (`len = 1`, the field `x`); hence no
cell with the present-value tag and another field count is produced by them. -/
theorem Constructed_arity (v : purs_any_t) (h : Constructed v) :
    (v.tag = .CONS ∧
      ∃ c, purs_any_get_cons v = .ok c ∧
        Data_Maybe_arity c.tag = some c.len ∧ c.values.length = c.len ∧
        (v = Data_Maybe_Nothing → c.tag = Data_Maybe_Nothing__Tag ∧ c.len = 0) ∧
        (c.tag = Data_Maybe_Nothing__Tag → c.len = 0 ∧ c.values = []) ∧
        (c.tag = Data_Maybe_Just__Tag → c.len = 1 ∧ ∃ x, c.values = [x]) ∧
        (v = Data_Maybe_Nothing → c.values = []) ∧
        (∀ x, v = Data_Maybe_Just x →
          c.tag = Data_Maybe_Just__Tag ∧ c.len = 1 ∧ c.values = [x])) ∧
      purs_any_get_cons Data_Maybe_Nothing =
        .ok { tag := Data_Maybe_Nothing__Tag, len := 0, values := [] } ∧
      (∀ x, purs_any_get_cons (Data_Maybe_Just x) =
        .ok { tag := Data_Maybe_Just__Tag, len := 1, values := [x] }) ∧
      Data_Maybe_arity Data_Maybe_Nothing__Tag = some 0 ∧
      Data_Maybe_arity Data_Maybe_Just__Tag = some 1 ∧
      (∀ len values, Constructed (.CONS Data_Maybe_Just__Tag len values) →
        len = 1 ∧ values.length = 1) := by
  refine ⟨?_, rfl, fun _ => rfl, rfl, rfl, ?_⟩
  · cases h with
    | nothing =>
      refine ⟨rfl, { tag := Data_Maybe_Nothing__Tag, len := 0, values := [] }, rfl, rfl, rfl,
        fun _ => ⟨rfl, rfl⟩, fun _ => ⟨rfl, rfl⟩, fun e => ?_, fun _ => rfl, fun x e => ?_⟩
      · exact absurd e.symm tags_distinct
      · exact absurd e (Nothing_ne_Just x)
    | just x =>
      refine ⟨rfl, { tag := Data_Maybe_Just__Tag, len := 1, values := [x] }, rfl, rfl, rfl,
        fun e => ?_, fun e => ?_, fun _ => ⟨rfl, x, rfl⟩, fun e => ?_, fun y e => ?_⟩
      · exact absurd e.symm (Nothing_ne_Just x)
      · exact absurd e tags_distinct
      · exact absurd e.symm (Nothing_ne_Just x)
      · rw [Just_injective x y e]
        exact ⟨rfl, rfl, rfl⟩
  · intro len values hc
    generalize hw : purs_any_t.CONS Data_Maybe_Just__Tag len values = w at hc
    cases hc with
    | nothing =>
      have ht : Data_Maybe_Just__Tag = Data_Maybe_Nothing__Tag := by
        simpa [Data_Maybe_Nothing] using congrArg
          (fun w => match w with
            | purs_any_t.CONS t _ _ => t
            | _ => 0) hw
      exact absurd ht tags_distinct
    | just x =>
      simp only [Data_Maybe_Just, purs_any_set_cons, purs_any_t.CONS.injEq] at hw
      obtain ⟨_, hl, hv⟩ := hw
      subst hl
      subst hv
      exact ⟨rfl, rfl⟩

/-- Witness of C7: the value `Data_Maybe_Just 5` has the tag `Data_Maybe_Just__Tag`, the
field count 1 and the one field `5`. -/
theorem Constructed_arity_witness :
    Constructed (Data_Maybe_Just (.INT 5)) ∧ (Data_Maybe_Just (.INT 5)).tag = .CONS ∧
      ∃ c, purs_any_get_cons (Data_Maybe_Just (.INT 5)) = .ok c ∧
        Data_Maybe_arity c.tag = some c.len ∧ c.values.length = c.len ∧
        c.tag = Data_Maybe_Just__Tag ∧ c.len = 1 ∧ c.values = [.INT 5] := by
  obtain ⟨⟨ht, c, hc, ha, hl, _, _, _, _, hj⟩, _⟩ :=
    Constructed_arity (Data_Maybe_Just (.INT 5)) (.just _)
  exact ⟨.just _, ht, c, hc, ha, hl, hj (.INT 5) rfl⟩

/-- C8: for every value whose discriminant is not `CONS` and every payload dictionary
`D`, the `show` of `Data_Maybe_showMaybe D` returns no text: it stops in the
invariant violation raised by the extraction `purs_any_get_cons`. -/
theorem showMaybe_not_cons (D : Data_Show_Show) (v : purs_any_t) (h : v.tag ≠ .CONS) :
    Data_Show_show (Data_Maybe_showMaybe D) v = .error (.INVARIANT_VIOLATION .extraction) := by
  cases v with
  | CONS tag len values => exact absurd rfl h
  | STRING s => rfl
  | INT n => rfl
  | BOOLEAN b => rfl

/-- Witness of C8: a text value under the decimal integer dictionary. -/
theorem showMaybe_not_cons_witness :
    (purs_any_t.STRING "abc").tag ≠ .CONS ∧
      Data_Show_show (Data_Maybe_showMaybe Data_Show_showInt) (.STRING "abc") =
        .error (.INVARIANT_VIOLATION .extraction) :=
  ⟨by decide, showMaybe_not_cons Data_Show_showInt (.STRING "abc") (by decide)⟩

/-- C9: any two uses `u` and `v` of the empty-variant constructor are equal values, with
the same discriminant, the same tag and the same field sequence, and every
dictionary `Data_Maybe_showMaybe D` renders both as the same text. -/
theorem Nothing_interchangeable (u v : purs_any_t) (hu : u = Data_Maybe_Nothing)
    (hv : v = Data_Maybe_Nothing) :
    u = v ∧ u.tag = v.tag ∧ purs_any_get_cons u = purs_any_get_cons v ∧
      (∃ c, purs_any_get_cons u = .ok c ∧ purs_any_get_cons v = .ok c ∧
        c.tag = Data_Maybe_Nothing__Tag ∧ c.values = []) ∧
      ∀ D, ∃ s, Data_Show_show (Data_Maybe_showMaybe D) u = .ok (.STRING s) ∧
        Data_Show_show (Data_Maybe_showMaybe D) v = .ok (.STRING s) := by
  subst hu
  subst hv
  exact ⟨rfl, rfl, rfl, ⟨{ tag := Data_Maybe_Nothing__Tag, len := 0, values := [] },
    rfl, rfl, rfl, rfl⟩, fun D => ⟨"(Nothing)", show_nothing_cell D 0 [], show_nothing_cell D 0 []⟩⟩

/-- Witness of C9: the shared cell used twice. -/
theorem Nothing_interchangeable_witness :
    Data_Maybe_Nothing = Data_Maybe_Nothing ∧
      ∀ D, ∃ s, Data_Show_show (Data_Maybe_showMaybe D) Data_Maybe_Nothing = .ok (.STRING s) ∧
        Data_Show_show (Data_Maybe_showMaybe D) Data_Maybe_Nothing = .ok (.STRING s) :=
  ⟨rfl, (Nothing_interchangeable Data_Maybe_Nothing Data_Maybe_Nothing rfl rfl).2.2.2.2⟩

/-! ## Building the derived dictionary -/

/-- A cell address that is in use is below the number of cells. -/
theorem show_slot_lt (m : Memory) (p : Nat) (c : Closure) (h : m.show_slot p = some c) :
    p < m.dicts.length := by
  by_contra hlt
  have hnone : m.dicts[p]? = none := List.getElem?_eq_none (Nat.le_of_not_lt hlt)
  rw [Memory.show_slot, hnone] at h
  exact Option.noConfusion h

/-- Building leaves every cell that existed before as it was. -/
theorem alloc_frame (m : Memory) (dictShow a : Nat) (h : a < m.dicts.length) :
    (Data_Maybe_showMaybe_alloc dictShow m).2.dicts[a]? = m.dicts[a]? := by
  simp only [Data_Maybe_showMaybe_alloc, GC_NEW, Memory.set_show]
  rw [List.getElem?_set_ne (Nat.ne_of_gt h), List.getElem?_append_left h]

/-- Building writes the block closed over `dictShow` to the slot of the new cell. -/
theorem alloc_slot (m : Memory) (dictShow : Nat) :
    (Data_Maybe_showMaybe_alloc dictShow m).2.show_slot (Data_Maybe_showMaybe_alloc dictShow m).1 =
      some (.showMaybe_block dictShow) := by
  simp [Data_Maybe_showMaybe_alloc, GC_NEW, Memory.set_show, Memory.show_slot]

/-- The slot of a cell that existed before is read the same after building. -/
theorem alloc_show_slot (m : Memory) (dictShow a : Nat) (h : a < m.dicts.length) :
    (Data_Maybe_showMaybe_alloc dictShow m).2.show_slot a = m.show_slot a := by
  rw [Memory.show_slot, Memory.show_slot, alloc_frame m dictShow a h]

/-- A cell stands for the same dictionary after building as before. -/
theorem alloc_denotes (m : Memory) (dictShow a : Nat) (D : Data_Show_Show)
    (h : Denotes m a D) : Denotes (Data_Maybe_showMaybe_alloc dictShow m).2 a D := by
  induction h with
  | host p f hp =>
    refine .host p f ?_
    rw [alloc_show_slot m dictShow p (show_slot_lt m p _ hp)]
    exact hp
  | block p d D hp _ ih =>
    refine .block p d D ?_ ih
    rw [alloc_show_slot m dictShow p (show_slot_lt m p _ hp)]
    exact hp

/-- C10: building the derived dictionary is pure and total.  For every memory and every
pointer `dictShow` to a cell that stands for a payload dictionary `D`,
`Data_Maybe_showMaybe` returns the address of a fresh cell whose `show` slot is
written and which stands for `Data_Maybe_showMaybe D`; no cell that existed before is
written, so `dictShow` still stands for `D`; and the address returned and the slot
written are the same for every memory with as many cells, whatever the cells hold,
so the `show` of `D` is not consulted while building. -/
theorem showMaybe_alloc_pure (m : Memory) (dictShow : Nat) (D : Data_Show_Show)
    (h : Denotes m dictShow D) :
    (Data_Maybe_showMaybe_alloc dictShow m).1 = m.dicts.length ∧
      (Data_Maybe_showMaybe_alloc dictShow m).2.dicts.length = m.dicts.length + 1 ∧
      (Data_Maybe_showMaybe_alloc dictShow m).2.show_slot
          (Data_Maybe_showMaybe_alloc dictShow m).1 = some (.showMaybe_block dictShow) ∧
      Denotes (Data_Maybe_showMaybe_alloc dictShow m).2 (Data_Maybe_showMaybe_alloc dictShow m).1
        (Data_Maybe_showMaybe D) ∧
      (∀ a, a < m.dicts.length →
        (Data_Maybe_showMaybe_alloc dictShow m).2.dicts[a]? = m.dicts[a]?) ∧
      Denotes (Data_Maybe_showMaybe_alloc dictShow m).2 dictShow D ∧
      (∀ m2 : Memory, m2.dicts.length = m.dicts.length →
        (Data_Maybe_showMaybe_alloc dictShow m2).1 = (Data_Maybe_showMaybe_alloc dictShow m).1 ∧
        (Data_Maybe_showMaybe_alloc dictShow m2).2.show_slot
            (Data_Maybe_showMaybe_alloc dictShow m2).1 =
          (Data_Maybe_showMaybe_alloc dictShow m).2.show_slot
            (Data_Maybe_showMaybe_alloc dictShow m).1) := by
  refine ⟨rfl, ?_, alloc_slot m dictShow, ?_, fun a ha => alloc_frame m dictShow a ha,
    alloc_denotes m dictShow dictShow D h, fun m2 h2 => ⟨h2, ?_⟩⟩
  · simp [Data_Maybe_showMaybe_alloc, GC_NEW, Memory.set_show]
  · exact .block _ dictShow D (alloc_slot m dictShow) (alloc_denotes m dictShow dictShow D h)
  · rw [alloc_slot, alloc_slot]

/-- Witness of C10: building over the cell of the decimal integer dictionary. -/
theorem showMaybe_alloc_pure_witness :
    Denotes intMemory 0 Data_Show_showInt ∧
      (Data_Maybe_showMaybe_alloc 0 intMemory).1 = 1 ∧
      Denotes (Data_Maybe_showMaybe_alloc 0 intMemory).2 1
        (Data_Maybe_showMaybe Data_Show_showInt) ∧
      Denotes (Data_Maybe_showMaybe_alloc 0 intMemory).2 0 Data_Show_showInt :=
  ⟨.host 0 _ rfl,
    (showMaybe_alloc_pure intMemory 0 Data_Show_showInt (.host 0 _ rfl)).1,
    (showMaybe_alloc_pure intMemory 0 Data_Show_showInt (.host 0 _ rfl)).2.2.2.1,
    (showMaybe_alloc_pure intMemory 0 Data_Show_showInt (.host 0 _ rfl)).2.2.2.2.2.1⟩

/-! ## When rendering returns -/

/-- Rendering a cell with the `Just` tag whose first field the payload dictionary turns
into a value that is not a text stops in the concatenation. -/
theorem show_just_not_text (D : Data_Show_Show) (len : Nat) (x r : purs_any_t)
    (rest : List purs_any_t) (h : Data_Show_show D x = .ok r) (hr : ∀ s, r ≠ .STRING s) :
    Data_Show_show (Data_Maybe_showMaybe D) (.CONS Data_Maybe_Just__Tag len (x :: rest)) =
      .error (.INVARIANT_VIOLATION .concatenation) := by
  rw [show_just_cell, h]
  cases r with
  | STRING s => exact absurd rfl (hr s)
  | CONS t l vs => simp [purs_any_concat, purs_any_set_string, bind, Except.bind]
  | INT n => simp [purs_any_concat, purs_any_set_string, bind, Except.bind]
  | BOOLEAN b => simp [purs_any_concat, purs_any_set_string, bind, Except.bind]

/-- Rendering a value that is not a constructor application stops at the extraction. -/
theorem show_not_cons_cell (D : Data_Show_Show) (v : purs_any_t)
    (h : ∀ tag len values, v ≠ .CONS tag len values) :
    Data_Show_show (Data_Maybe_showMaybe D) v = .error (.INVARIANT_VIOLATION .extraction) := by
  cases v with
  | CONS tag len values => exact absurd rfl (h tag len values)
  | STRING s => rfl
  | INT n => rfl
  | BOOLEAN b => rfl

/-- Counterexample for C12 as stated: under the dictionary whose `show` returns its
argument, the payload `3` is returned by the payload operation without a fault, and
yet rendering `Data_Maybe_Just 3` stops in a fault, the one of the concatenation; so
a failure of rendering a constructed value need not be one of the payload
operation. -/
theorem Constructed_failure_counterexample :
    Constructed (Data_Maybe_Just (.INT 3)) ∧
      Data_Show_show echoShow (.INT 3) = .ok (.INT 3) ∧
      Data_Show_show (Data_Maybe_showMaybe echoShow) (Data_Maybe_Just (.INT 3)) =
        .error (.INVARIANT_VIOLATION .concatenation) ∧
      ¬ (∀ (D : Data_Show_Show) (v : purs_any_t) (e : Fault), Constructed v →
          Data_Show_show (Data_Maybe_showMaybe D) v = .error e →
          ∃ x, v = Data_Maybe_Just x ∧ Data_Show_show D x = .error e) := by
  refine ⟨.just _, rfl, rfl, fun hall => ?_⟩
  obtain ⟨x, hx, he⟩ := hall echoShow (Data_Maybe_Just (.INT 3)) _ (.just _) rfl
  simp [Data_Show_show, echoShow] at he

/-- C12 (amended): for every value built by the constructors of the module, the
extraction succeeds, the tag is one of the two tags, so the assertion after the two
tag tests is not reached, and under the `Just` tag the field count is 1 and the read
`values[0]` is within bounds.  Rendering such a value fails only on
`Data_Maybe_Just x`, and then either with the fault that the `show` of the payload
dictionary raised on `x`, or, when that operation returned a value that is not a
text, with the fault of the concatenation. -/
theorem Constructed_failures (D : Data_Show_Show) (v : purs_any_t) (h : Constructed v) :
    (∃ c, purs_any_get_cons v = .ok c ∧
        (c.tag = Data_Maybe_Just__Tag ∨ c.tag = Data_Maybe_Nothing__Tag) ∧
        (c.tag = Data_Maybe_Just__Tag → c.len = 1 ∧ c.values.length = 1 ∧
          ∃ x, c.field 0 = .ok x ∧ v = Data_Maybe_Just x)) ∧
      (v = Data_Maybe_Nothing →
        Data_Show_show (Data_Maybe_showMaybe D) v = .ok (.STRING "(Nothing)")) ∧
      (∀ e, Data_Show_show (Data_Maybe_showMaybe D) v = .error e →
        ∃ x, v = Data_Maybe_Just x ∧
          (Data_Show_show D x = .error e ∨
            (∃ r, Data_Show_show D x = .ok r ∧ (∀ s, r ≠ .STRING s) ∧
              e = .INVARIANT_VIOLATION .concatenation))) := by
  cases h with
  | nothing =>
    refine ⟨⟨{ tag := Data_Maybe_Nothing__Tag, len := 0, values := [] }, rfl, .inr rfl,
      fun hj => absurd (hj.symm : Data_Maybe_Just__Tag = Data_Maybe_Nothing__Tag) tags_distinct⟩,
      fun _ => show_nothing_cell D 0 [], fun e he => ?_⟩
    rw [show Data_Maybe_Nothing = purs_any_t.CONS Data_Maybe_Nothing__Tag 0 [] from rfl,
      show_nothing_cell D 0 []] at he
    cases he
  | just x =>
    refine ⟨⟨{ tag := Data_Maybe_Just__Tag, len := 1, values := [x] }, rfl, .inl rfl,
      fun _ => ⟨rfl, rfl, x, rfl, rfl⟩⟩, fun hn => ?_, fun e he => ⟨x, rfl, ?_⟩⟩
    · have ht : Data_Maybe_Just__Tag = Data_Maybe_Nothing__Tag := by
        simpa [Data_Maybe_Just, Data_Maybe_Nothing, purs_any_set_cons] using congrArg
          (fun w => match w with
            | purs_any_t.CONS t _ _ => t
            | _ => 0) hn
      exact absurd ht tags_distinct
    · cases hx : Data_Show_show D x with
      | error e2 =>
        rw [show_just_fault D x e2 hx] at he
        cases he
        exact .inl rfl
      | ok r =>
        by_cases ht : ∃ s, r = .STRING s
        · obtain ⟨s, rfl⟩ := ht
          rw [show_just_text D x s hx] at he
          cases he
        · have hnt : ∀ s, r ≠ .STRING s := fun s hs => ht ⟨s, hs⟩
          have hf := show_just_not_text D 1 x r [] hx hnt
          rw [show Data_Maybe_Just x = purs_any_t.CONS Data_Maybe_Just__Tag 1 [x] from rfl,
            hf] at he
          cases he
          exact .inr ⟨r, rfl, hnt, rfl⟩

/-- Witness of C12 (amended): the value `Data_Maybe_Just 3` under the dictionary whose
`show` returns its argument; the rendering fails in the concatenation. -/
theorem Constructed_failures_witness :
    Constructed (Data_Maybe_Just (.INT 3)) ∧
      ∃ x, Data_Maybe_Just (.INT 3) = Data_Maybe_Just x ∧
        (Data_Show_show echoShow x = .error (.INVARIANT_VIOLATION .concatenation) ∨
          (∃ r, Data_Show_show echoShow x = .ok r ∧ (∀ s, r ≠ .STRING s) ∧
            Fault.INVARIANT_VIOLATION .concatenation = .INVARIANT_VIOLATION .concatenation)) :=
  ⟨.just _, (Constructed_failures echoShow (Data_Maybe_Just (.INT 3)) (.just _)).2.2
    (.INVARIANT_VIOLATION .concatenation) rfl⟩

/-! ## Iterated wrapping -/

/-- Appending one more copy at the end is the same as at the front. -/
theorem copies_append (n : Nat) (s : String) : copies n s ++ s = s ++ copies n s := by
  induction n with
  | zero => simp [copies]
  | succ n ih => rw [copies, String.append_assoc, ih]

/-- The iterated instance over a derived dictionary is the iterated instance with one
more level. -/
theorem showMaybe_iterate_succ (n : Nat) (D : Data_Show_Show) :
    showMaybe_iterate n (Data_Maybe_showMaybe D) = showMaybe_iterate (n + 1) D := by
  induction n with
  | zero => rfl
  | succ n ih =>
    show Data_Maybe_showMaybe (showMaybe_iterate n (Data_Maybe_showMaybe D)) = _
    rw [ih]
    rfl

/-- Rendering an `n`-fold wrapped value whose core the dictionary renders as `t`. -/
theorem show_Just_iterate (n : Nat) (E : Data_Show_Show) (y : purs_any_t) (t : String)
    (h : Data_Show_show E y = .ok (.STRING t)) :
    Data_Show_show (showMaybe_iterate n E) (Just_iterate n y) =
      .ok (.STRING (copies n "(Just " ++ t ++ copies n ")")) := by
  induction n with
  | zero => simpa [showMaybe_iterate, Just_iterate, copies] using h
  | succ n ih =>
    show Data_Show_show (Data_Maybe_showMaybe (showMaybe_iterate n E))
      (Data_Maybe_Just (Just_iterate n y)) = _
    rw [show_just_text _ _ _ ih]
    have e : "(Just " ++ (copies n "(Just " ++ t ++ copies n ")" ++ ")") =
        copies (n + 1) "(Just " ++ t ++ copies (n + 1) ")" := by
      rw [copies, copies, String.append_assoc (copies n "(Just " ++ t), copies_append]
      simp only [String.append_assoc]
    rw [e]

/-- C13: for every `n`, every payload dictionary `D` and every payload `x` on which the
`show` of `D` returns the text `s`, the `n`-fold instance renders the `n`-fold
wrapped `x` as `n` copies of `"(Just "`, then `s`, then `n` copies of `")"`; and the
`(n + 1)`-fold instance renders the `n`-fold wrapped `Data_Maybe_Nothing` as `n`
copies of `"(Just "`, then `"(Nothing)"`, then `n` copies of `")"`. -/
theorem showMaybe_iterate_render (n : Nat) (D : Data_Show_Show) (x : purs_any_t)
    (s : String) (h : Data_Show_show D x = .ok (.STRING s)) :
    Data_Show_show (showMaybe_iterate n D) (Just_iterate n x) =
        .ok (.STRING (copies n "(Just " ++ s ++ copies n ")")) ∧
      Data_Show_show (showMaybe_iterate (n + 1) D) (Just_iterate n Data_Maybe_Nothing) =
        .ok (.STRING (copies n "(Just " ++ "(Nothing)" ++ copies n ")")) := by
  refine ⟨show_Just_iterate n D x s h, ?_⟩
  rw [← showMaybe_iterate_succ]
  exact show_Just_iterate n (Data_Maybe_showMaybe D) Data_Maybe_Nothing "(Nothing)"
    (show_nothing_cell D 0 [])

/-- Witness of C13: three levels over the decimal integer dictionary at `7`. -/
theorem showMaybe_iterate_render_witness :
    Data_Show_show Data_Show_showInt (.INT 7) = .ok (.STRING "7") ∧
      Data_Show_show (showMaybe_iterate 3 Data_Show_showInt) (Just_iterate 3 (.INT 7)) =
        .ok (.STRING "(Just (Just (Just 7)))") ∧
      Data_Show_show (showMaybe_iterate 4 Data_Show_showInt)
          (Just_iterate 3 Data_Maybe_Nothing) =
        .ok (.STRING "(Just (Just (Just (Nothing))))") :=
  ⟨rfl, (showMaybe_iterate_render 3 Data_Show_showInt (.INT 7) "7" rfl).1,
    (showMaybe_iterate_render 3 Data_Show_showInt (.INT 7) "7" rfl).2⟩

/-! ## Rendering tells values apart -/

/-- The text of a present value is never the text of the empty variant: the two differ
at their second character. -/
theorem just_text_ne_nothing_text (s : String) : "(Just " ++ (s ++ ")") ≠ "(Nothing)" := by
  intro h
  have hd := congrArg String.data h
  simp [String.data_append] at hd

/-- The text of a present value determines the text of its payload. -/
theorem just_text_injective (s t : String)
    (h : "(Just " ++ (s ++ ")") = "(Just " ++ (t ++ ")")) : s = t := by
  have hd := congrArg String.data h
  simp only [String.data_append] at hd
  exact String.ext (List.append_cancel_right (List.append_cancel_left hd))

/-- Rendering a present value and rendering the empty variant differ whenever the
payload is rendered as a text. -/
theorem show_just_ne_nothing (D : Data_Show_Show) (x : purs_any_t) (s : String)
    (h : Data_Show_show D x = .ok (.STRING s)) :
    Data_Show_show (Data_Maybe_showMaybe D) (Data_Maybe_Just x) ≠
      Data_Show_show (Data_Maybe_showMaybe D) Data_Maybe_Nothing := by
  rw [show_just_text D x s h,
    show Data_Maybe_Nothing = purs_any_t.CONS Data_Maybe_Nothing__Tag 0 [] from rfl,
    show_nothing_cell D 0 []]
  intro he
  injection he with he
  injection he with he
  exact just_text_ne_nothing_text s he

/-- C14: rendering preserves injectivity of the payload renderer.  If the `show` of `D`
gives a text on every payload of a set `P` and different payloads of `P` give
different texts, then the `show` of `Data_Maybe_showMaybe D` is injective on
`Data_Maybe_Nothing` together with the values `Data_Maybe_Just x` for `x` in `P`:
two such values with equal renderings are the same value, of the same variant and
with the same payload. -/
theorem showMaybe_injective (D : Data_Show_Show) (P : Set purs_any_t)
    (htext : ∀ x ∈ P, ∃ s, Data_Show_show D x = .ok (.STRING s))
    (hinj : ∀ x ∈ P, ∀ y ∈ P, Data_Show_show D x = Data_Show_show D y → x = y)
    (u v : purs_any_t)
    (hu : u = Data_Maybe_Nothing ∨ ∃ x ∈ P, u = Data_Maybe_Just x)
    (hv : v = Data_Maybe_Nothing ∨ ∃ y ∈ P, v = Data_Maybe_Just y)
    (heq : Data_Show_show (Data_Maybe_showMaybe D) u =
      Data_Show_show (Data_Maybe_showMaybe D) v) :
    u = v ∧ (u = Data_Maybe_Nothing ↔ v = Data_Maybe_Nothing) ∧
      (∀ x y, u = Data_Maybe_Just x → v = Data_Maybe_Just y → x = y) := by
  have huv : u = v := by
    rcases hu with rfl | ⟨x, hx, rfl⟩
    · rcases hv with rfl | ⟨y, hy, rfl⟩
      · rfl
      · obtain ⟨t, ht⟩ := htext y hy
        exact absurd heq.symm (show_just_ne_nothing D y t ht)
    · obtain ⟨s, hs⟩ := htext x hx
      rcases hv with rfl | ⟨y, hy, rfl⟩
      · exact absurd heq (show_just_ne_nothing D x s hs)
      · obtain ⟨t, ht⟩ := htext y hy
        rw [show_just_text D x s hs, show_just_text D y t ht] at heq
        injection heq with heq
        injection heq with heq
        have hst : s = t := just_text_injective s t heq
        have hxy : x = y := hinj x hx y hy (by rw [hs, ht, hst])
        rw [hxy]
  subst huv
  exact ⟨rfl, Iff.rfl, fun x y hx hy => Just_injective x y (hx.symm.trans hy)⟩

/-- Witness of C14: the dictionary whose `show` returns its argument, on the set of the
text values, at the value `Data_Maybe_Just "a"` taken twice. -/
theorem showMaybe_injective_witness :
    Data_Maybe_Just (.STRING "a") = Data_Maybe_Just (.STRING "a") ∧
      (∀ x y, Data_Maybe_Just (.STRING "a") = Data_Maybe_Just x →
        Data_Maybe_Just (.STRING "a") = Data_Maybe_Just y → x = y) :=
  ⟨(showMaybe_injective echoShow textValues
      (fun x hx => by obtain ⟨s, rfl⟩ := hx; exact ⟨s, rfl⟩)
      (fun x _ y _ h => by
        simpa [Data_Show_show, echoShow] using h)
      (Data_Maybe_Just (.STRING "a")) (Data_Maybe_Just (.STRING "a"))
      (.inr ⟨_, ⟨"a", rfl⟩, rfl⟩) (.inr ⟨_, ⟨"a", rfl⟩, rfl⟩) rfl).1,
    (showMaybe_injective echoShow textValues
      (fun x hx => by obtain ⟨s, rfl⟩ := hx; exact ⟨s, rfl⟩)
      (fun x _ y _ h => by
        simpa [Data_Show_show, echoShow] using h)
      (Data_Maybe_Just (.STRING "a")) (Data_Maybe_Just (.STRING "a"))
      (.inr ⟨_, ⟨"a", rfl⟩, rfl⟩) (.inr ⟨_, ⟨"a", rfl⟩, rfl⟩) rfl).2.2⟩

/-- C15: rendering distinguishes the two variants.  For every payload dictionary `D` and
payload `x` on which the `show` of `D` returns a text, whatever the text, the
rendering of `Data_Maybe_Just x` is different from the rendering of
`Data_Maybe_Nothing`. -/
theorem showMaybe_variants_differ (D : Data_Show_Show) (x : purs_any_t) (s : String)
    (h : Data_Show_show D x = .ok (.STRING s)) :
    Data_Show_show (Data_Maybe_showMaybe D) (Data_Maybe_Just x) ≠
        Data_Show_show (Data_Maybe_showMaybe D) Data_Maybe_Nothing ∧
      Data_Show_show (Data_Maybe_showMaybe D) (Data_Maybe_Just x) =
        .ok (.STRING ("(Just " ++ s ++ ")")) ∧
      Data_Show_show (Data_Maybe_showMaybe D) Data_Maybe_Nothing =
        .ok (.STRING "(Nothing)") ∧
      "(Just " ++ s ++ ")" ≠ "(Nothing)" := by
  refine ⟨show_just_ne_nothing D x s h, ?_, show_nothing_cell D 0 [], ?_⟩
  · rw [show_just_text D x s h, String.append_assoc]
  · rw [String.append_assoc]
    exact just_text_ne_nothing_text s

/-- Witness of C15: the payload text `"Nothing)"` under the dictionary whose `show`
returns its argument, and the empty payload text. -/
theorem showMaybe_variants_differ_witness :
    Data_Show_show echoShow (.STRING "Nothing)") = .ok (.STRING "Nothing)") ∧
      Data_Show_show (Data_Maybe_showMaybe echoShow) (Data_Maybe_Just (.STRING "Nothing)")) ≠
        Data_Show_show (Data_Maybe_showMaybe echoShow) Data_Maybe_Nothing ∧
      Data_Show_show (Data_Maybe_showMaybe echoShow) (Data_Maybe_Just (.STRING "")) ≠
        Data_Show_show (Data_Maybe_showMaybe echoShow) Data_Maybe_Nothing :=
  ⟨rfl, (showMaybe_variants_differ echoShow (.STRING "Nothing)") "Nothing)" rfl).1,
    (showMaybe_variants_differ echoShow (.STRING "") "" rfl).1⟩

end Purec
